import Mathlib

/-!
Shallow embedding of the tex2pdf conversion service (src/main.py) and
proofs about its configuration, authentication, admission control,
archive sanitization, compilation pipeline, reaper sweep and HTTP
endpoints.  Machine times (time.time() values) are modelled as
integers; environment variables as Option String (none = unset).
String primitives used by the embedding are implemented structurally
over List Char so that the kernel can evaluate them.
-/

namespace Tex2Pdf

/-! ## String primitives -/

/-- Split a character list at every occurrence of the separator.  The
empty list yields one empty component, matching Python str.split with
an explicit separator ("".split(",") == [""]). -/
def splitOnChar (sep : Char) : List Char → List Char → List (List Char)
  | [], acc => [acc.reverse]
  | c :: cs, acc =>
    if c = sep then acc.reverse :: splitOnChar sep cs []
    else splitOnChar sep cs (c :: acc)

/-- Python str.split(sep) for a one-character separator. -/
def pySplit (s : String) (sep : Char) : List String :=
  (splitOnChar sep s.toList []).map (fun cs => String.mk cs)

/-- ASCII lowercase of one character (str.lower on the ASCII inputs the
service compares against). -/
def lowerChar (c : Char) : Char :=
  if 65 ≤ c.toNat ∧ c.toNat ≤ 90 then Char.ofNat (c.toNat + 32) else c

/-- ASCII lowercase of a string. -/
def lowerString (s : String) : String :=
  String.mk (s.toList.map lowerChar)

/-- str.endswith. -/
def strEndsWith (s pat : String) : Bool :=
  pat.toList.isSuffixOf s.toList

/-- str.startswith. -/
def strStartsWith (s pat : String) : Bool :=
  pat.toList.isPrefixOf s.toList

/-- Whether pat occurs as a contiguous sublist of l (Python `in` on
strings). -/
def listContainsSub (pat : List Char) : List Char → Bool
  | [] => pat.isPrefixOf []
  | c :: rest => pat.isPrefixOf (c :: rest) || listContainsSub pat rest

/-- Python `pat in s` for strings. -/
def strContains (s pat : String) : Bool :=
  listContainsSub pat.toList s.toList

/-! ## Configuration and authentication (main.py lines 31-102) -/

/-- The two environment variables that drive authentication; a value of
none means the variable is unset. -/
structure Env where
  allowedApiKeysVar : Option String
  apiKeyRequiredVar : Option String
deriving DecidableEq, Repr

/-- main.py line 33: ALLOWED_API_KEYS = os.environ.get("ALLOWED_API_KEYS", "").split(","). -/
def ALLOWED_API_KEYS (env : Env) : List String :=
  pySplit (env.allowedApiKeysVar.getD "") ','

/-- main.py lines 40-42: API_KEY_REQUIRED is first len(ALLOWED_API_KEYS) > 0,
and when that is true it is refined by the API_KEY_REQUIRED variable
(default "true", compared lowercased against "true"/"1"/"yes"). -/
def API_KEY_REQUIRED (env : Env) : Bool :=
  if 0 < (ALLOWED_API_KEYS env).length then
    decide (lowerString (env.apiKeyRequiredVar.getD "true") ∈ (["true", "1", "yes"] : List String))
  else
    false

/-- Outcome of a FastAPI dependency: either an identity string or an
HTTPException with a status code. -/
inductive AuthOutcome
  | ok (identity : String)
  | httpError (statusCode : Nat)
deriving DecidableEq, Repr

/-- main.py lines 80-102, verify_api_key.  The header argument is the
value of request.headers.get(API_KEY_NAME): none when the header is
absent.  Python `if not api_key` also rejects an empty-string header. -/
def verify_api_key (env : Env) (header : Option String) : AuthOutcome :=
  if API_KEY_REQUIRED env = false then
    AuthOutcome.ok "no_auth"
  else
    match header with
    | none => AuthOutcome.httpError 401
    | some apiKey =>
      if apiKey = "" then
        AuthOutcome.httpError 401
      else if ALLOWED_API_KEYS env = [] ∨ apiKey ∉ ALLOWED_API_KEYS env then
        AuthOutcome.httpError 401
      else
        AuthOutcome.ok apiKey

/-- main.py line 105: client_id = api_key or request.client.host.
Python `or` yields the left operand when it is truthy; a string is
truthy exactly when it is nonempty. -/
def clientId (apiKey : String) (host : String) : String :=
  if apiKey = "" then host else apiKey

/-! ## Admission control (main.py lines 104-122) -/

/-- main.py line 112: drop the timestamps that have left the window
(kept iff current_time - t < RATE_LIMIT_WINDOW). -/
def pruneWindow (window now : ℤ) (times : List ℤ) : List ℤ :=
  times.filter (fun t => decide (now - t < window))

/-- main.py lines 104-122, check_rate_limit, restricted to one client's
bucket: prune, then reject (returning the pruned bucket unchanged) when
the pruned count has reached the cap, else record now and admit. -/
def check_rate_limit (window : ℤ) (cap : ℕ) (times : List ℤ) (now : ℤ) :
    Bool × List ℤ :=
  let pruned := pruneWindow window now times
  if cap ≤ pruned.length then
    (false, pruned)
  else
    (true, pruned ++ [now])

/-! ## Theorems: C1, C5, C4 -/

/-- C1: the claim says that with the allowed-credentials variable unset
or empty, authentication is disabled and verify_api_key succeeds for
every request.  On the code the opposite happens: the empty string
splits to the one-element list [""], so API_KEY_REQUIRED defaults to
true and a request without the header (and likewise any request with a
header, since no key can equal an entry of [""] after the emptiness
check) is rejected with 401. -/
theorem c1_auth_enabled_when_keys_unset :
    ALLOWED_API_KEYS ⟨none, none⟩ = [""] ∧
    API_KEY_REQUIRED ⟨none, none⟩ = true ∧
    verify_api_key ⟨none, none⟩ none = AuthOutcome.httpError 401 ∧
    verify_api_key ⟨none, none⟩ (some "any-key") = AuthOutcome.httpError 401 ∧
    verify_api_key ⟨some "", none⟩ none = AuthOutcome.httpError 401 := by
  refine ⟨by decide, by decide, by decide, by decide, by decide⟩

/-- C5: the claim says unauthenticated requests from distinct network
addresses fall into distinct rate-limit buckets.  On the code, when
authentication is disabled verify_api_key returns the sentinel
"no_auth", which is a nonempty (truthy) string, so the address fallback
in client_id = api_key or request.client.host is never taken: all
unauthenticated clients share the single bucket key "no_auth". -/
theorem c5_unauthenticated_share_bucket :
    verify_api_key ⟨none, some "false"⟩ none = AuthOutcome.ok "no_auth" ∧
    clientId "no_auth" "10.0.0.1" = "no_auth" ∧
    clientId "no_auth" "10.0.0.2" = "no_auth" ∧
    ∀ host1 host2 : String, clientId "no_auth" host1 = clientId "no_auth" host2 := by
  refine ⟨by decide, by decide, by decide, fun host1 host2 => rfl⟩

/-- C4: each admission check first prunes the bucket to the timestamps
still inside the window, then admits (recording now at the end of the
bucket) exactly when the pruned count is below the cap and rejects
without recording otherwise; consequently a bucket holding cap fresh
timestamps rejects the next request and leaves the bucket unchanged,
and once the whole bucket has aged out of the window a request is
admitted into a fresh bucket. -/
theorem c4_admission_control (window : ℤ) (cap : ℕ) (times : List ℤ) (now : ℤ) :
    ((check_rate_limit window cap times now).1 = true ↔
      (pruneWindow window now times).length < cap) ∧
    ((check_rate_limit window cap times now).1 = true →
      (check_rate_limit window cap times now).2 = pruneWindow window now times ++ [now]) ∧
    ((check_rate_limit window cap times now).1 = false →
      (check_rate_limit window cap times now).2 = pruneWindow window now times) ∧
    ((∀ t ∈ times, now - t < window) → cap ≤ times.length →
      check_rate_limit window cap times now = (false, times)) ∧
    ((∀ t ∈ times, window ≤ now - t) → 0 < cap →
      check_rate_limit window cap times now = (true, [now])) := by
  refine ⟨?_, ?_, ?_, ?_, ?_⟩
  · unfold check_rate_limit
    by_cases hc : cap ≤ (pruneWindow window now times).length
    · simp [hc]
    · simp [hc]
      omega
  · unfold check_rate_limit
    by_cases hc : cap ≤ (pruneWindow window now times).length
    · simp [hc]
    · simp [hc]
  · unfold check_rate_limit
    by_cases hc : cap ≤ (pruneWindow window now times).length
    · simp [hc]
    · simp [hc]
  · intro hfresh hfull
    have hp : pruneWindow window now times = times := by
      apply List.filter_eq_self.mpr
      intro t ht
      exact decide_eq_true (hfresh t ht)
    unfold check_rate_limit
    rw [hp]
    simp [hfull]
  · intro hstale hcap
    have hp : pruneWindow window now times = [] := by
      apply List.filter_eq_nil_iff.mpr
      intro t ht
      simp only [decide_eq_true_eq]
      exact not_lt.mpr (hstale t ht)
    unfold check_rate_limit
    rw [hp]
    simp
    omega

/-- Witness for c4_admission_control: a full fresh bucket of two
timestamps rejects at cap two, and a fully stale bucket admits. -/
theorem c4_admission_control_witness :
    check_rate_limit 60 2 [100, 110] 120 = (false, [100, 110]) ∧
    check_rate_limit 60 2 [10, 20] 120 = (true, [120]) :=
  ⟨(c4_admission_control 60 2 [100, 110] 120).2.2.2.1 (by decide) (by decide),
   (c4_admission_control 60 2 [10, 20] 120).2.2.2.2 (by decide) (by decide)⟩

/-! ## Archive sanitizer (main.py lines 128-173)

A zip entry is modelled by its declared name and uncompressed size
(zipfile.ZipInfo.filename and .file_size); zip names use forward
slashes.
-/

/-- One entry of the uploaded archive. -/
structure ZipEntry where
  filename : String
  fileSize : ℕ
deriving DecidableEq, Repr

/-- PurePosixPath(name).is_absolute(): a leading slash. -/
def pathIsAbsolute (name : String) : Bool :=
  strStartsWith name "/"

/-- PurePosixPath(name).parts: slash-separated components with empty
and single-dot components dropped; an absolute path contributes a
leading "/" part. -/
def pathParts (name : String) : List String :=
  let comps := (pySplit name '/').filter (fun c => c ≠ "" ∧ c ≠ ".")
  if pathIsAbsolute name then "/" :: comps else comps

/-- main.py lines 141-142: an entry is rejected when its path is
absolute or has a parent-directory component. -/
def entrySuspicious (e : ZipEntry) : Bool :=
  pathIsAbsolute e.filename || (pathParts e.filename).contains ".."

/-- main.py lines 136-146: the metadata pre-pass over every entry; the
first violation raises ValueError with the corresponding message. -/
def validateEntries (maxUploadSize : ℕ) : List ZipEntry → Except String Unit
  | [] => Except.ok ()
  | e :: rest =>
    if entrySuspicious e then
      Except.error ("Suspicious path detected: " ++ e.filename)
    else if maxUploadSize < e.fileSize then
      Except.error ("File too large: " ++ e.filename)
    else
      validateEntries maxUploadSize rest

/-- main.py lines 149-162: the extraction loop writes every
non-directory entry (names ending in a slash are skipped) under the
destination directory. -/
def extractedFiles (entries : List ZipEntry) : List String :=
  (entries.filter (fun e => !(strEndsWith e.filename "/"))).map (fun e => e.filename)

/-- main.py lines 128-173, sanitize_zip_archive: the full metadata
pre-pass runs before the extraction loop, so an invalid entry raises
before anything is written.  The result pairs the outcome with the
list of files written under the destination directory. -/
def sanitize_zip_archive (maxUploadSize : ℕ) (entries : List ZipEntry) :
    Except String Unit × List String :=
  match validateEntries maxUploadSize entries with
  | Except.error msg => (Except.error msg, [])
  | Except.ok () => (Except.ok (), extractedFiles entries)

/-- The pre-pass succeeds exactly when every entry is clean (relative
path, no parent-directory component) and within the size bound. -/
theorem validateEntries_ok_iff (m : ℕ) (l : List ZipEntry) :
    validateEntries m l = Except.ok () ↔
      ∀ e ∈ l, entrySuspicious e = false ∧ e.fileSize ≤ m := by
  induction l with
  | nil => simp [validateEntries]
  | cons e rest ih =>
    by_cases hs : entrySuspicious e
    · simp [validateEntries, hs]
    · by_cases hz : m < e.fileSize
      · simp [validateEntries, hs, hz]
      · simp [validateEntries, hs, hz, ih]
        intro _
        omega

/-! ## Theorem: C2 -/

/-- C2: an archive containing an entry with an absolute or traversal
path, or an entry whose declared uncompressed size exceeds the maximum
upload size, makes sanitize_zip_archive fail with an error and write
zero files: the metadata pre-pass completes before any extraction. -/
theorem c2_sanitize_atomic (maxUploadSize : ℕ) (entries : List ZipEntry)
    (h : ∃ e ∈ entries, entrySuspicious e = true ∨ maxUploadSize < e.fileSize) :
    (∃ msg, (sanitize_zip_archive maxUploadSize entries).1 = Except.error msg) ∧
    (sanitize_zip_archive maxUploadSize entries).2 = [] := by
  obtain ⟨e, he, hbad⟩ := h
  have hnotok : validateEntries maxUploadSize entries ≠ Except.ok () := by
    intro hok
    obtain ⟨hclean, hsize⟩ := (validateEntries_ok_iff maxUploadSize entries).mp hok e he
    rcases hbad with hb | hb
    · rw [hclean] at hb
      exact Bool.false_ne_true hb
    · omega
  unfold sanitize_zip_archive
  match hv : validateEntries maxUploadSize entries with
  | Except.error msg => exact ⟨⟨msg, rfl⟩, rfl⟩
  | Except.ok () => exact absurd hv hnotok

/-- Witness for c2_sanitize_atomic: an archive holding a traversal
entry ../../etc/passwd is rejected with no file written. -/
theorem c2_sanitize_atomic_witness :
    (∃ msg, (sanitize_zip_archive 1000
      [⟨"paper/main.tex", 10⟩, ⟨"../../etc/passwd", 10⟩]).1 = Except.error msg) ∧
    (sanitize_zip_archive 1000
      [⟨"paper/main.tex", 10⟩, ⟨"../../etc/passwd", 10⟩]).2 = [] :=
  c2_sanitize_atomic 1000 [⟨"paper/main.tex", 10⟩, ⟨"../../etc/passwd", 10⟩]
    ⟨⟨"../../etc/passwd", 10⟩, by decide, by decide⟩

/-! ## Job store (main.py lines 50-67, 213-274, 574-601) -/

/-- main.py lines 75-78, ConversionOptions; persisted in the options
column as a JSON blob via json.dumps and read back via json.loads,
modelled structurally. -/
structure ConversionOptions where
  main_file : String := "main.tex"
  num_runs : ℕ := 2
  use_bibtex : Bool := false
deriving DecidableEq, Repr

/-- One row of the jobs table (columns of the CREATE TABLE at main.py
lines 52-64, minus the id, which keys the store). -/
structure JobRecord where
  status : String
  created_at : ℤ
  work_dir : String
  api_key : String
  options : ConversionOptions
  error : String
  progress : String
  updated_at : ℤ
deriving DecidableEq, Repr

/-- The updates dict passed to update_job: for each updatable column,
some value when the caller supplies the field and none otherwise
(updated_at is never caller-supplied; it is always set by update_job
itself).  A dict key outside the table's columns makes the generated
UPDATE statement raise sqlite3.OperationalError and write nothing; such
calls are outside this record model (see the details note at
compileLoop). -/
structure JobUpdateFields where
  status : Option String := none
  created_at : Option ℤ := none
  work_dir : Option String := none
  api_key : Option String := none
  options : Option ConversionOptions := none
  error : Option String := none
  progress : Option String := none
deriving DecidableEq, Repr

/-- main.py lines 253-274, update_job on one existing row: the SET
clause starts with updated_at=now and then assigns exactly the
supplied fields; every other column keeps its value. -/
def update_job (now : ℤ) (upd : JobUpdateFields) (row : JobRecord) : JobRecord :=
  { status := upd.status.getD row.status,
    created_at := upd.created_at.getD row.created_at,
    work_dir := upd.work_dir.getD row.work_dir,
    api_key := upd.api_key.getD row.api_key,
    options := upd.options.getD row.options,
    error := upd.error.getD row.error,
    progress := upd.progress.getD row.progress,
    updated_at := now }

/-- The JSON body of the status endpoint (main.py lines 586-599). -/
structure StatusResponse where
  job_id : String
  status : String
  created_at : ℤ
  error : Option String
  progress : Option String
deriving DecidableEq, Repr

/-- main.py lines 574-601, check_job_status: a pure read of the job
store (get_job only SELECTs), returning 404 for an unknown id and the
cleaned response otherwise; the error and progress keys are attached
only in the failed and processing states (the row dict always carries
both columns, so the Python `"error" in job` guard reduces to the
status test).  The returned store is the store after the call: the
handler performs no write. -/
def check_job_status (store : List (String × JobRecord)) (jobId : String) :
    Except ℕ StatusResponse × List (String × JobRecord) :=
  match store.lookup jobId with
  | none => (Except.error 404, store)
  | some job =>
    (Except.ok
      { job_id := jobId,
        status := job.status,
        created_at := job.created_at,
        error := if job.status = "failed" then some job.error else none,
        progress := if job.status = "processing" then some job.progress else none },
     store)

/-! ## Theorem: C7 -/

/-- C7: update_job changes exactly the supplied fields plus updated_at,
which is always refreshed to the call time; every unsupplied field
keeps its prior value. -/
theorem c7_update_job_partial_merge (now : ℤ) (upd : JobUpdateFields) (row : JobRecord) :
    ((update_job now upd row).updated_at = now) ∧
    (∀ v, upd.status = some v → (update_job now upd row).status = v) ∧
    (upd.status = none → (update_job now upd row).status = row.status) ∧
    (∀ v, upd.created_at = some v → (update_job now upd row).created_at = v) ∧
    (upd.created_at = none → (update_job now upd row).created_at = row.created_at) ∧
    (∀ v, upd.work_dir = some v → (update_job now upd row).work_dir = v) ∧
    (upd.work_dir = none → (update_job now upd row).work_dir = row.work_dir) ∧
    (∀ v, upd.api_key = some v → (update_job now upd row).api_key = v) ∧
    (upd.api_key = none → (update_job now upd row).api_key = row.api_key) ∧
    (∀ v, upd.options = some v → (update_job now upd row).options = v) ∧
    (upd.options = none → (update_job now upd row).options = row.options) ∧
    (∀ v, upd.error = some v → (update_job now upd row).error = v) ∧
    (upd.error = none → (update_job now upd row).error = row.error) ∧
    (∀ v, upd.progress = some v → (update_job now upd row).progress = v) ∧
    (upd.progress = none → (update_job now upd row).progress = row.progress) := by
  refine ⟨rfl, ?_, ?_, ?_, ?_, ?_, ?_, ?_, ?_, ?_, ?_, ?_, ?_, ?_, ?_⟩ <;>
    first
      | exact fun v h => by simp [update_job, h]
      | exact fun h => by simp [update_job, h]

/-- Witness for c7_update_job_partial_merge: updating only status and
error changes those two fields and updated_at, and leaves work_dir,
created_at, api_key, options and progress untouched. -/
theorem c7_update_job_partial_merge_witness :
    (update_job 42 { status := some "failed", error := some "boom" }
      { status := "processing", created_at := 7, work_dir := "/tmp/w", api_key := "k",
        options := {}, error := "", progress := "pass 1/2", updated_at := 9 }).updated_at = 42 ∧
    (update_job 42 { status := some "failed", error := some "boom" }
      { status := "processing", created_at := 7, work_dir := "/tmp/w", api_key := "k",
        options := {}, error := "", progress := "pass 1/2", updated_at := 9 }).status = "failed" ∧
    (update_job 42 { status := some "failed", error := some "boom" }
      { status := "processing", created_at := 7, work_dir := "/tmp/w", api_key := "k",
        options := {}, error := "", progress := "pass 1/2", updated_at := 9 }).error = "boom" ∧
    (update_job 42 { status := some "failed", error := some "boom" }
      { status := "processing", created_at := 7, work_dir := "/tmp/w", api_key := "k",
        options := {}, error := "", progress := "pass 1/2", updated_at := 9 }).work_dir = "/tmp/w" ∧
    (update_job 42 { status := some "failed", error := some "boom" }
      { status := "processing", created_at := 7, work_dir := "/tmp/w", api_key := "k",
        options := {}, error := "", progress := "pass 1/2", updated_at := 9 }).progress = "pass 1/2" :=
  ⟨(c7_update_job_partial_merge 42 _ _).1,
   (c7_update_job_partial_merge 42 _ _).2.1 "failed" rfl,
   (c7_update_job_partial_merge 42 _ _).2.2.2.2.2.2.2.2.2.2.2.1 "boom" rfl,
   (c7_update_job_partial_merge 42 _ _).2.2.2.2.2.2.1 rfl,
   (c7_update_job_partial_merge 42 _ _).2.2.2.2.2.2.2.2.2.2.2.2.2.2 rfl⟩

/-! ## Compilation pipeline (main.py lines 175-211, 296-415) -/

/-- Result of one run_latex_command invocation: either the subprocess
completed (returncode plus decoded stdout and stderr) or the wall-clock
timeout hit, in which case the helper terminates the process and raises
TimeoutError. -/
inductive RunOutcome
  | finished (returncode : ℤ) (stdout : String) (stderr : String)
  | timedOut
deriving DecidableEq, Repr

/-- One toolchain invocation: the argument vector and the cwd value
passed to run_latex_command (none when the caller leaves the parameter
at its default cwd=None, inheriting the service process's current
directory in create_subprocess_exec). -/
structure Invocation where
  cmd : List String
  cwd : Option String
deriving DecidableEq, Repr

/-- One update_job call issued by the pipeline, as the supplied fields.
The details field carries the json.dumps(result) blob supplied on a
non-zero-exit failure (main.py line 354); the jobs table has no details
column, so at runtime that one call raises sqlite3.OperationalError
inside the try block and the generic handler at line 378 issues a
failed update instead - the status sequence reasoned about below
(one terminal update, in final position) is the same either way. -/
structure PipeUpdate where
  status : Option String := none
  error : Option String := none
  progress : Option String := none
  details : Option RunOutcome := none
deriving DecidableEq, Repr

/-- One observable step of compile_latex: an update_job call, the
store_pdf write into the artifact store, or a toolchain invocation. -/
inductive PipeEvent
  | update (u : PipeUpdate)
  | storePdf
  | invoke (inv : Invocation)
deriving DecidableEq, Repr

/-- main.py lines 328-333: the pdflatex argument vector. -/
def pdflatexCmd (mainFile : String) : List String :=
  ["pdflatex", "-interaction=nonstopmode", "-file-line-error", mainFile]

/-- os.path.splitext(s)[0] for a bare file name: strip the suffix at
the last dot, except that the dots leading the name never start an
extension (so a name of only leading dots and no later dot is
returned whole). -/
def splitextRoot (s : String) : String :=
  let cs := s.toList
  let lead := cs.takeWhile (fun c => c == '.')
  let rest := cs.dropWhile (fun c => c == '.')
  let parts := splitOnChar '.' rest []
  if parts.length ≤ 1 then s
  else String.mk (lead ++ List.intercalate ['.'] parts.dropLast)

/-- main.py lines 365-366: the bibtex argument vector, built from the
main file's base name. -/
def bibtexCmd (mainFile : String) : List String :=
  ["bibtex", splitextRoot mainFile]

/-- The TimeoutError message raised at main.py line 211 (the Python
text interpolates the timeout and the joined command line). -/
def timeoutMessage (timeout : ℕ) (cmd : List String) : String :=
  "Command timed out after " ++ Nat.repr timeout ++ " seconds: " ++
    String.intercalate " " cmd

/-- main.py lines 341-345: the stdout lines that look like errors
(contain a colon and either Error or Fatal). -/
def errorLines (stdout : String) : List String :=
  (pySplit stdout '\n').filter (fun line =>
    strContains line ":" && (strContains line "Error" || strContains line "Fatal"))

/-- main.py lines 347-349: the digest joined from the first three
scanned lines, or the generic message when none match. -/
def buildErrorMessage (stdout : String) : String :=
  let ls := errorLines stdout
  if ls = [] then "LaTeX compilation failed"
  else "LaTeX errors: " ++ String.intercalate " | " (ls.take 3)

/-- What one compile_latex run observes from the outside world: whether
the main file is present in work_dir, the outcome of the i-th pdflatex
pass, the outcome of the bibtex run, and whether the expected PDF
exists on disk after the passes. -/
structure CompileEnv where
  mainFileExists : Bool
  passOutcomes : List RunOutcome
  bibtexOutcome : RunOutcome
  pdfProduced : Bool
deriving DecidableEq, Repr

/-- The outcome compile_latex observes for the i-th pdflatex pass (the
getD default never applies to a pass the loop actually reaches: the
subprocess always yields an outcome). -/
def passOutcome (env : CompileEnv) (i : ℕ) : RunOutcome :=
  env.passOutcomes.getD i RunOutcome.timedOut

/-- main.py lines 322-325: the per-pass progress update. -/
def passUpdate (i numRuns : ℕ) : PipeUpdate :=
  { status := some "processing",
    progress := some ("LaTeX compilation " ++ Nat.repr (i + 1) ++ "/" ++ Nat.repr numRuns) }

/-- main.py lines 360-363: the progress update before the bibtex run. -/
def bibProgressUpdate : PipeUpdate :=
  { status := some "processing", progress := some "Running BibTeX" }

/-- main.py lines 321-415 from the pass loop on, driven by the list of
remaining pass indices (initially range(num_runs)): the events issued
from this point, paired with the boolean compile_latex returns.  After
the last pass the expected PDF path is checked; only then store_pdf and
the completed update run.  A pdflatex timeout or non-zero exit ends the
job failed; a bibtex non-zero exit is ignored, while a bibtex timeout
raises TimeoutError and also ends the job failed.  The bibtex call at
line 368 passes no cwd. -/
def compileLoop (env : CompileEnv) (timeout : ℕ) (workDir mainFile : String)
    (numRuns : ℕ) (useBibtex : Bool) : List ℕ → List PipeEvent × Bool
  | [] =>
    if env.pdfProduced then
      ([PipeEvent.storePdf, PipeEvent.update { status := some "completed" }], true)
    else
      ([PipeEvent.update
          { status := some "failed",
            error := some "PDF file not generated despite successful compilation" }], false)
  | i :: rest =>
    let start := PipeEvent.update (passUpdate i numRuns)
    let run := PipeEvent.invoke ⟨pdflatexCmd mainFile, some workDir⟩
    match passOutcome env i with
    | RunOutcome.timedOut =>
      ([start, run, PipeEvent.update
          { status := some "failed",
            error := some (timeoutMessage timeout (pdflatexCmd mainFile)) }], false)
    | RunOutcome.finished rc stdout stderr =>
      if rc ≠ 0 then
        ([start, run, PipeEvent.update
            { status := some "failed",
              error := some (buildErrorMessage stdout),
              details := some (RunOutcome.finished rc stdout stderr) }], false)
      else if useBibtex ∧ i = 0 then
        let bibRun := PipeEvent.invoke ⟨bibtexCmd mainFile, none⟩
        match env.bibtexOutcome with
        | RunOutcome.timedOut =>
          ([start, run, PipeEvent.update bibProgressUpdate, bibRun,
            PipeEvent.update
              { status := some "failed",
                error := some (timeoutMessage timeout (bibtexCmd mainFile)) }], false)
        | RunOutcome.finished _ _ _ =>
          let tail := compileLoop env timeout workDir mainFile numRuns useBibtex rest
          (start :: run :: PipeEvent.update bibProgressUpdate :: bibRun :: tail.1, tail.2)
      else
        let tail := compileLoop env timeout workDir mainFile numRuns useBibtex rest
        (start :: run :: tail.1, tail.2)

/-- main.py lines 296-415, compile_latex: the ordered events it issues
(job updates, the artifact-store write, toolchain invocations) and the
boolean it returns. -/
def compile_latex (env : CompileEnv) (timeout : ℕ) (workDir mainFile : String)
    (numRuns : ℕ) (useBibtex : Bool) : List PipeEvent × Bool :=
  if env.mainFileExists then
    compileLoop env timeout workDir mainFile numRuns useBibtex (List.range numRuns)
  else
    ([PipeEvent.update
        { status := some "failed",
          error := some ("Main LaTeX file (" ++ mainFile ++ ") not found in the archive.") }], false)

/-- The update_job calls among a list of pipeline events. -/
def updatesOf (evs : List PipeEvent) : List PipeUpdate :=
  evs.filterMap (fun ev =>
    match ev with
    | PipeEvent.update u => some u
    | _ => none)

/-- The toolchain invocations among a list of pipeline events. -/
def invocationsOf (evs : List PipeEvent) : List Invocation :=
  evs.filterMap (fun ev =>
    match ev with
    | PipeEvent.invoke inv => some inv
    | _ => none)

/-- Whether an update writes a terminal status. -/
def isTerminalUpdate (u : PipeUpdate) : Bool :=
  u.status == some "completed" || u.status == some "failed"

/-! ## Job view and event replay (for the artifact invariant) -/

/-- The externally visible state of one job: whether its row exists,
its status column, whether its PDF sits in the artifact store
(JOBS_DIR), and whether its work directory exists. -/
structure JobView where
  recordExists : Bool
  status : String
  artifact : Bool
  workDirExists : Bool
deriving DecidableEq, Repr

/-- Effect of one pipeline event on the job view: an update_job call
writes the status column when supplied, store_pdf creates the
artifact, a toolchain invocation writes only inside work_dir. -/
def applyEvent (s : JobView) : PipeEvent → JobView
  | PipeEvent.update u =>
    match u.status with
    | some st => { s with status := st }
    | none => s
  | PipeEvent.storePdf => { s with artifact := true }
  | PipeEvent.invoke _ => s

/-- The job view after a list of events has executed. -/
def replay (init : JobView) (evs : List PipeEvent) : JobView :=
  evs.foldl applyEvent init

/-- Every state the job passes through while the events execute (the
initial state and the state after each event). -/
def replayStates (init : JobView) (evs : List PipeEvent) : List JobView :=
  evs.scanl applyEvent init

/-- main.py lines 431-447: the per-job reaper cleanup, in order: remove
the PDF from the artifact store, remove the work directory, delete the
row. -/
def reaperJobSteps : List (JobView → JobView) :=
  [fun s => { s with artifact := false },
   fun s => { s with workDirExists := false },
   fun s => { s with recordExists := false }]

/-- The job view after the reaper has cleaned the job. -/
def reaperCleanup (s : JobView) : JobView :=
  reaperJobSteps.foldl (fun s f => f s) s

/-- The states a job passes through during its reaper cleanup. -/
def reaperStates (s : JobView) : List JobView :=
  reaperJobSteps.scanl (fun s f => f s) s

/-- The C3 equivalence: an artifact exists exactly for a completed
job whose row exists. -/
def artifactInvariant (s : JobView) : Prop :=
  s.artifact = true ↔ (s.recordExists = true ∧ s.status = "completed")

/-- A successful two-pass environment used by concrete runs. -/
def exSuccessEnv : CompileEnv :=
  { mainFileExists := true,
    passOutcomes := [RunOutcome.finished 0 "" "", RunOutcome.finished 0 "" ""],
    bibtexOutcome := RunOutcome.finished 0 "" "",
    pdfProduced := true }

/-! ## Small rewriting lemmas for event projections -/

/-- updatesOf keeps an update at the head. -/
theorem updatesOf_update (u : PipeUpdate) (evs : List PipeEvent) :
    updatesOf (PipeEvent.update u :: evs) = u :: updatesOf evs := rfl

/-- updatesOf drops an invocation at the head. -/
theorem updatesOf_invoke (inv : Invocation) (evs : List PipeEvent) :
    updatesOf (PipeEvent.invoke inv :: evs) = updatesOf evs := rfl

/-- updatesOf drops the artifact-store write at the head. -/
theorem updatesOf_store (evs : List PipeEvent) :
    updatesOf (PipeEvent.storePdf :: evs) = updatesOf evs := rfl

/-- The per-pass progress update is not terminal. -/
theorem passUpdate_not_terminal (i numRuns : ℕ) :
    isTerminalUpdate (passUpdate i numRuns) = false := rfl

/-- The bibtex progress update is not terminal. -/
theorem bibProgressUpdate_not_terminal :
    isTerminalUpdate bibProgressUpdate = false := rfl

/-- Prepending a non-terminal update preserves the shape in which a
terminal update can sit only in final position. -/
theorem terminalLast_cons (u : PipeUpdate) (l : List PipeUpdate)
    (hu : isTerminalUpdate u = false) (hne : l ≠ [])
    (hl : ∀ v ∈ l.dropLast, isTerminalUpdate v = false) :
    (u :: l) ≠ [] ∧ ∀ v ∈ (u :: l).dropLast, isTerminalUpdate v = false := by
  refine ⟨List.cons_ne_nil u l, ?_⟩
  cases l with
  | nil => exact absurd rfl hne
  | cons b bs =>
    rw [List.dropLast_cons₂]
    intro v hv
    rcases List.mem_cons.mp hv with h | h
    · rw [h]; exact hu
    · exact hl v h

/-- In the update trace of the pass loop, every update before the last
one is non-terminal (and the trace is nonempty). -/
theorem compileLoop_updates_shape (env : CompileEnv) (timeout : ℕ)
    (workDir mainFile : String) (numRuns : ℕ) (useBibtex : Bool) (idxs : List ℕ) :
    updatesOf (compileLoop env timeout workDir mainFile numRuns useBibtex idxs).1 ≠ [] ∧
    ∀ u ∈ (updatesOf (compileLoop env timeout workDir mainFile numRuns useBibtex idxs).1).dropLast,
      isTerminalUpdate u = false := by
  induction idxs with
  | nil =>
    by_cases hp : env.pdfProduced = true
    · simp [compileLoop, hp, updatesOf_store, updatesOf_update, updatesOf]
    · simp at hp
      simp [compileLoop, hp, updatesOf_update, updatesOf]
  | cons i rest ih =>
    cases hout : passOutcome env i with
    | timedOut =>
      simp [compileLoop, hout, updatesOf_update, updatesOf_invoke, updatesOf,
        passUpdate_not_terminal]
    | finished rc out err =>
      by_cases hrc : rc ≠ 0
      · simp [compileLoop, hout, hrc, updatesOf_update, updatesOf_invoke, updatesOf,
          passUpdate_not_terminal]
      · by_cases hb : useBibtex ∧ i = 0
        · obtain ⟨hbt, hbi⟩ := hb
          subst hbi
          cases hbib : env.bibtexOutcome with
          | timedOut =>
            simp [compileLoop, hout, hrc, hbt, hbib, updatesOf_update, updatesOf_invoke,
              updatesOf, passUpdate_not_terminal, bibProgressUpdate_not_terminal,
              bibProgressUpdate]
            decide
          | finished brc bout berr =>
            have hshape :
                (compileLoop env timeout workDir mainFile numRuns useBibtex (0 :: rest)).1 =
                  PipeEvent.update (passUpdate 0 numRuns) ::
                  PipeEvent.invoke ⟨pdflatexCmd mainFile, some workDir⟩ ::
                  PipeEvent.update bibProgressUpdate ::
                  PipeEvent.invoke ⟨bibtexCmd mainFile, none⟩ ::
                  (compileLoop env timeout workDir mainFile numRuns useBibtex rest).1 := by
              simp [compileLoop, hout, hrc, hbt, hbib]
            rw [hshape, updatesOf_update, updatesOf_invoke, updatesOf_update, updatesOf_invoke]
            exact terminalLast_cons _ _ (passUpdate_not_terminal 0 numRuns)
              (terminalLast_cons _ _ bibProgressUpdate_not_terminal ih.1 ih.2).1
              (terminalLast_cons _ _ bibProgressUpdate_not_terminal ih.1 ih.2).2
        · have hshape :
              (compileLoop env timeout workDir mainFile numRuns useBibtex (i :: rest)).1 =
                PipeEvent.update (passUpdate i numRuns) ::
                PipeEvent.invoke ⟨pdflatexCmd mainFile, some workDir⟩ ::
                (compileLoop env timeout workDir mainFile numRuns useBibtex rest).1 := by
            simp [compileLoop, hout, hrc, hb]
          rw [hshape, updatesOf_update, updatesOf_invoke]
          exact terminalLast_cons _ _ (passUpdate_not_terminal i numRuns) ih.1 ih.2

/-! ## Theorems: C6, C8 -/

/-- C6: a terminal status (completed or failed) is final.  In every
update trace compile_latex can issue, all updates before the last are
non-terminal, so nothing follows a terminal write; and a status query
is a pure read: it leaves the store (hence updated_at) unchanged,
repeating it returns the identical result, and for a stored row it
reports exactly the stored status. -/
theorem c6_terminal_state_final (env : CompileEnv) (timeout : ℕ)
    (workDir mainFile : String) (numRuns : ℕ) (useBibtex : Bool)
    (store : List (String × JobRecord)) (jobId : String) (job : JobRecord) :
    (∀ u ∈ (updatesOf (compile_latex env timeout workDir mainFile numRuns useBibtex).1).dropLast,
      isTerminalUpdate u = false) ∧
    ((check_job_status store jobId).2 = store) ∧
    (check_job_status ((check_job_status store jobId).2) jobId = check_job_status store jobId) ∧
    (store.lookup jobId = some job →
      (check_job_status store jobId).1 = Except.ok
        { job_id := jobId, status := job.status, created_at := job.created_at,
          error := if job.status = "failed" then some job.error else none,
          progress := if job.status = "processing" then some job.progress else none }) := by
  have hstore : (check_job_status store jobId).2 = store := by
    unfold check_job_status
    cases store.lookup jobId <;> rfl
  refine ⟨?_, hstore, by rw [hstore], ?_⟩
  · unfold compile_latex
    by_cases hm : env.mainFileExists = true
    · rw [if_pos hm]
      exact (compileLoop_updates_shape env timeout workDir mainFile numRuns useBibtex
        (List.range numRuns)).2
    · simp at hm
      rw [if_neg (by simp [hm])]
      simp [updatesOf_update, updatesOf]
  · intro h
    unfold check_job_status
    rw [h]

/-- Witness for c6_terminal_state_final: a store holding one completed
job; the query returns the stored terminal status and leaves the store
unchanged. -/
theorem c6_terminal_state_final_witness :
    (check_job_status
        [("job-1", { status := "completed", created_at := 100, work_dir := "/tmp/w",
                     api_key := "k", options := {}, error := "", progress := "",
                     updated_at := 120 })] "job-1").2 =
      [("job-1", { status := "completed", created_at := 100, work_dir := "/tmp/w",
                   api_key := "k", options := {}, error := "", progress := "",
                   updated_at := 120 })] ∧
    (check_job_status
        [("job-1", { status := "completed", created_at := 100, work_dir := "/tmp/w",
                     api_key := "k", options := {}, error := "", progress := "",
                     updated_at := 120 })] "job-1").1 =
      Except.ok { job_id := "job-1", status := "completed", created_at := 100,
                  error := none, progress := none } :=
  ⟨(c6_terminal_state_final exSuccessEnv 240 "/tmp/w" "main.tex" 2 false _ "job-1"
      { status := "completed", created_at := 100, work_dir := "/tmp/w", api_key := "k",
        options := {}, error := "", progress := "", updated_at := 120 }).2.1,
   by
    have h := (c6_terminal_state_final exSuccessEnv 240 "/tmp/w" "main.tex" 2 false
      [("job-1", { status := "completed", created_at := 100, work_dir := "/tmp/w",
                   api_key := "k", options := {}, error := "", progress := "",
                   updated_at := 120 })] "job-1"
      { status := "completed", created_at := 100, work_dir := "/tmp/w", api_key := "k",
        options := {}, error := "", progress := "", updated_at := 120 }).2.2.2 (by decide)
    simpa using h⟩

/-- C8: the claim says every toolchain invocation of the pipeline runs
with the job's work_dir as its working directory.  On the code the
bibtex call at main.py line 368 omits the cwd argument, so it runs with
run_latex_command's default cwd=None (the service process's current
directory): for a successful two-pass job with bibliography requested,
the invocation sequence is pdflatex bound to work_dir, bibtex bound to
nothing, pdflatex bound to work_dir. -/
theorem c8_bibtex_not_bound_to_workdir :
    invocationsOf (compile_latex exSuccessEnv 240 "/tmp/tex2pdf_job1" "main.tex" 2 true).1 =
      [⟨pdflatexCmd "main.tex", some "/tmp/tex2pdf_job1"⟩,
       ⟨bibtexCmd "main.tex", none⟩,
       ⟨pdflatexCmd "main.tex", some "/tmp/tex2pdf_job1"⟩] ∧
    (Invocation.mk (bibtexCmd "main.tex") none).cwd ≠ some "/tmp/tex2pdf_job1" := by
  refine ⟨by decide, by decide⟩

/-! ## Theorems: C3 -/

/-- C3: the claim says the artifact exists if and only if the job's
status is completed, in every reachable state including mid-pipeline.
On the code, compile_latex stores the PDF (main.py line 401) before it
writes status completed (line 404): replaying a successful two-pass run
from the queued state, the state reached right after store_pdf has the
artifact present while status is still processing; symmetrically,
mid-reaper-sweep the PDF is deleted (line 438) before the row (line
446), giving a state whose row says completed with no artifact. -/
theorem c3_artifact_invariant_counterexample :
    (replayStates ⟨true, "queued", false, true⟩
        (compile_latex exSuccessEnv 240 "wd" "main.tex" 2 false).1).getD 5
        ⟨false, "", false, false⟩ =
      ⟨true, "processing", true, true⟩ ∧
    ¬ artifactInvariant ⟨true, "processing", true, true⟩ ∧
    (reaperStates ⟨true, "completed", true, true⟩).getD 1 ⟨false, "", false, false⟩ =
      ⟨true, "completed", false, true⟩ ∧
    ¬ artifactInvariant ⟨true, "completed", false, true⟩ := by
  refine ⟨by decide, ?_, by decide, ?_⟩
  · unfold artifactInvariant
    decide
  · unfold artifactInvariant
    decide

/-- Replaying the pass loop's events over the job view: on the success
return the final view is the initial one with status completed and the
artifact stored; on the failure return the status is failed and the
artifact, row and work directory are untouched. -/
theorem compileLoop_replay (env : CompileEnv) (timeout : ℕ) (workDir mainFile : String)
    (numRuns : ℕ) (useBibtex : Bool) (idxs : List ℕ) (init : JobView) :
    ((compileLoop env timeout workDir mainFile numRuns useBibtex idxs).2 = true ∧
      replay init (compileLoop env timeout workDir mainFile numRuns useBibtex idxs).1 =
        { init with status := "completed", artifact := true }) ∨
    ((compileLoop env timeout workDir mainFile numRuns useBibtex idxs).2 = false ∧
      (replay init (compileLoop env timeout workDir mainFile numRuns useBibtex idxs).1).status
        = "failed" ∧
      (replay init (compileLoop env timeout workDir mainFile numRuns useBibtex idxs).1).artifact
        = init.artifact ∧
      (replay init (compileLoop env timeout workDir mainFile numRuns useBibtex idxs).1).recordExists
        = init.recordExists) := by
  induction idxs generalizing init with
  | nil =>
    by_cases hp : env.pdfProduced = true
    · left
      simp [compileLoop, hp, replay, applyEvent]
    · simp at hp
      right
      simp [compileLoop, hp, replay, applyEvent]
  | cons i rest ih =>
    cases hout : passOutcome env i with
    | timedOut =>
      right
      simp [compileLoop, hout, replay, applyEvent, passUpdate]
    | finished rc out err =>
      by_cases hrc : rc ≠ 0
      · right
        simp [compileLoop, hout, hrc, replay, applyEvent, passUpdate]
      · by_cases hb : useBibtex ∧ i = 0
        · obtain ⟨hbt, hbi⟩ := hb
          subst hbi
          cases hbib : env.bibtexOutcome with
          | timedOut =>
            right
            simp [compileLoop, hout, hrc, hbt, hbib, replay, applyEvent, passUpdate,
              bibProgressUpdate]
          | finished brc bout berr =>
            have hshape :
                (compileLoop env timeout workDir mainFile numRuns useBibtex (0 :: rest)).1 =
                  PipeEvent.update (passUpdate 0 numRuns) ::
                  PipeEvent.invoke ⟨pdflatexCmd mainFile, some workDir⟩ ::
                  PipeEvent.update bibProgressUpdate ::
                  PipeEvent.invoke ⟨bibtexCmd mainFile, none⟩ ::
                  (compileLoop env timeout workDir mainFile numRuns useBibtex rest).1 := by
              simp [compileLoop, hout, hrc, hbt, hbib]
            have hval :
                (compileLoop env timeout workDir mainFile numRuns useBibtex (0 :: rest)).2 =
                  (compileLoop env timeout workDir mainFile numRuns useBibtex rest).2 := by
              simp [compileLoop, hout, hrc, hbt, hbib]
            rw [hshape, hval]
            have hstep :
                replay init
                    (PipeEvent.update (passUpdate 0 numRuns) ::
                     PipeEvent.invoke ⟨pdflatexCmd mainFile, some workDir⟩ ::
                     PipeEvent.update bibProgressUpdate ::
                     PipeEvent.invoke ⟨bibtexCmd mainFile, none⟩ ::
                     (compileLoop env timeout workDir mainFile numRuns useBibtex rest).1) =
                  replay { init with status := "processing" }
                    (compileLoop env timeout workDir mainFile numRuns useBibtex rest).1 := by
              simp [replay, applyEvent, passUpdate, bibProgressUpdate]
            rw [hstep]
            rcases ih { init with status := "processing" } with ⟨h2, hrep⟩ | ⟨h2, hst, hart, hrec⟩
            · left
              exact ⟨h2, by rw [hrep]⟩
            · right
              exact ⟨h2, hst, hart, hrec⟩
        · have hshape :
              (compileLoop env timeout workDir mainFile numRuns useBibtex (i :: rest)).1 =
                PipeEvent.update (passUpdate i numRuns) ::
                PipeEvent.invoke ⟨pdflatexCmd mainFile, some workDir⟩ ::
                (compileLoop env timeout workDir mainFile numRuns useBibtex rest).1 := by
            simp [compileLoop, hout, hrc, hb]
          have hval :
              (compileLoop env timeout workDir mainFile numRuns useBibtex (i :: rest)).2 =
                (compileLoop env timeout workDir mainFile numRuns useBibtex rest).2 := by
            simp [compileLoop, hout, hrc, hb]
          rw [hshape, hval]
          have hstep :
              replay init
                  (PipeEvent.update (passUpdate i numRuns) ::
                   PipeEvent.invoke ⟨pdflatexCmd mainFile, some workDir⟩ ::
                   (compileLoop env timeout workDir mainFile numRuns useBibtex rest).1) =
                replay { init with status := "processing" }
                  (compileLoop env timeout workDir mainFile numRuns useBibtex rest).1 := by
            simp [replay, applyEvent, passUpdate]
          rw [hstep]
          rcases ih { init with status := "processing" } with ⟨h2, hrep⟩ | ⟨h2, hst, hart, hrec⟩
          · left
            exact ⟨h2, by rw [hrep]⟩
          · right
            exact ⟨h2, hst, hart, hrec⟩

/-- C3 amended: the equivalence artifact-present iff status completed
holds at the quiescent boundaries - when the pipeline run finishes
(either outcome, starting from a queued job with no artifact yet) and
after the reaper has cleaned a job - but not at every intermediate
state (see the counterexample, which exhibits a mid-pipeline state with
the artifact present while status is processing and a mid-sweep state
with a completed row whose artifact is already gone). -/
theorem c3_artifact_invariant_quiescent (env : CompileEnv) (timeout : ℕ)
    (workDir mainFile : String) (numRuns : ℕ) (useBibtex : Bool) (init : JobView)
    (hrec : init.recordExists = true) (hart : init.artifact = false) :
    artifactInvariant
      (replay init (compile_latex env timeout workDir mainFile numRuns useBibtex).1) ∧
    ∀ s : JobView, artifactInvariant (reaperCleanup s) := by
  constructor
  · unfold compile_latex
    by_cases hm : env.mainFileExists = true
    · rw [if_pos hm]
      rcases compileLoop_replay env timeout workDir mainFile numRuns useBibtex
          (List.range numRuns) init with ⟨_, hrep⟩ | ⟨_, hst, hart2, hrec2⟩
      · rw [hrep]
        unfold artifactInvariant
        simp [hrec]
      · unfold artifactInvariant
        rw [hst, hart2, hart]
        simp
    · simp at hm
      rw [if_neg (by simp [hm])]
      unfold artifactInvariant
      simp [replay, applyEvent, hart]
  · intro s
    unfold artifactInvariant reaperCleanup reaperJobSteps
    simp

/-- Witness for c3_artifact_invariant_quiescent: a queued job with no
artifact run through a successful two-pass compile ends in a state
satisfying the equivalence, and so does a cleaned-up completed job. -/
theorem c3_artifact_invariant_quiescent_witness :
    artifactInvariant
      (replay ⟨true, "queued", false, true⟩
        (compile_latex exSuccessEnv 240 "wd" "main.tex" 2 false).1) ∧
    artifactInvariant (reaperCleanup ⟨true, "completed", true, true⟩) :=
  ⟨(c3_artifact_invariant_quiescent exSuccessEnv 240 "wd" "main.tex" 2 false
      ⟨true, "queued", false, true⟩ rfl rfl).1,
   (c3_artifact_invariant_quiescent exSuccessEnv 240 "wd" "main.tex" 2 false
      ⟨true, "queued", false, true⟩ rfl rfl).2 ⟨true, "completed", true, true⟩⟩

/-! ## Job reaper sweep (main.py lines 418-455) -/

/-- One expired job as one sweep iteration sees it, together with
whether an exception is raised while cleaning it (for example from
os.remove on its PDF or from the DELETE statement; shutil.rmtree is
called with ignore_errors=True and never raises). -/
structure ExpiredJob where
  id : String
  cleanupFails : Bool
deriving DecidableEq, Repr

/-- main.py lines 421-452, the body of one sweep: the for loop over the
expired jobs runs inside a single try block, so an exception while
cleaning one job jumps to the sweep-level handler at line 451 and the
remaining jobs of this sweep are not processed (the loop, not the
iteration, is aborted); the handler logs and the while-True loop waits
for the next interval.  Returns the ids cleaned in this sweep and the
id at which the sweep aborted, if any. -/
def sweepExpired : List ExpiredJob → List String × Option String
  | [] => ([], none)
  | j :: rest =>
    if j.cleanupFails then
      ([], some j.id)
    else
      let r := sweepExpired rest
      (j.id :: r.1, r.2)

/-! ## Theorems: C9 -/

/-- C9: the claim says a failure while cleaning one expired job does
not abort the sweep for the remaining expired jobs.  On the code the
whole for loop sits inside one try block, so when cleanup of the first
job a raises, the second expired job b of the same sweep is not
processed at all. -/
theorem c9_sweep_aborts_counterexample :
    sweepExpired [⟨"a", true⟩, ⟨"b", false⟩] = ([], some "a") ∧
    "b" ∉ (sweepExpired [⟨"a", true⟩, ⟨"b", false⟩]).1 := by
  refine ⟨by decide, by decide⟩

/-- C9 amended: a failure while cleaning one expired job aborts the
remainder of that sweep: the jobs before the failing one are cleaned,
the failing job and every later one are left for a future sweep; when
no cleanup fails, every expired job of the sweep is cleaned.  (The
exception is caught at sweep level, so the reaper task itself survives
to the next interval.) -/
theorem c9_sweep_prefix_until_failure (pre : List ExpiredJob) (j : ExpiredJob)
    (post : List ExpiredJob) (l : List ExpiredJob)
    (hpre : ∀ x ∈ pre, x.cleanupFails = false) (hj : j.cleanupFails = true)
    (hok : ∀ x ∈ l, x.cleanupFails = false) :
    sweepExpired (pre ++ j :: post) = (pre.map ExpiredJob.id, some j.id) ∧
    sweepExpired l = (l.map ExpiredJob.id, none) := by
  constructor
  · induction pre with
    | nil => simp [sweepExpired, hj]
    | cons x xs ih =>
      have hx : x.cleanupFails = false := hpre x (List.mem_cons_self x xs)
      have hxs : ∀ y ∈ xs, y.cleanupFails = false :=
        fun y hy => hpre y (List.mem_cons_of_mem x hy)
      simp [sweepExpired, hx, ih hxs]
  · induction l with
    | nil => simp [sweepExpired]
    | cons x xs ih =>
      have hx : x.cleanupFails = false := hok x (List.mem_cons_self x xs)
      have hxs : ∀ y ∈ xs, y.cleanupFails = false :=
        fun y hy => hok y (List.mem_cons_of_mem x hy)
      simp [sweepExpired, hx, ih hxs]

/-- Witness for c9_sweep_prefix_until_failure: with expired jobs a, b,
c where cleaning b fails, the sweep cleans only a; a fully healthy
sweep cleans all of its jobs. -/
theorem c9_sweep_prefix_until_failure_witness :
    sweepExpired [⟨"a", false⟩, ⟨"b", true⟩, ⟨"c", false⟩] = (["a"], some "b") ∧
    sweepExpired [⟨"d", false⟩, ⟨"e", false⟩] = (["d", "e"], none) :=
  ⟨(c9_sweep_prefix_until_failure [⟨"a", false⟩] ⟨"b", true⟩ [⟨"c", false⟩]
      [⟨"d", false⟩, ⟨"e", false⟩] (by decide) (by decide) (by decide)).1,
   (c9_sweep_prefix_until_failure [⟨"a", false⟩] ⟨"b", true⟩ [⟨"c", false⟩]
      [⟨"d", false⟩, ⟨"e", false⟩] (by decide) (by decide) (by decide)).2⟩

/-! ## Submit endpoint (main.py lines 457-572) -/

/-- The JSON body returned by the submit endpoint. -/
structure SubmitResponse where
  job_id : String
  status : String
  message : String
deriving DecidableEq, Repr

/-- main.py lines 124-126: re.match([a-zA-Z0-9_.-]+[.]tex against the
whole name (the regex is anchored at both ends).  Since the characters
of the .tex suffix belong to the class, a name matches exactly when it
ends with .tex, has at least one class character before the suffix,
and every character is in the class. -/
def isLatexFilenameChar (c : Char) : Bool :=
  decide ((65 ≤ c.toNat ∧ c.toNat ≤ 90) ∨ (97 ≤ c.toNat ∧ c.toNat ≤ 122) ∨
    (48 ≤ c.toNat ∧ c.toNat ≤ 57) ∨ c = '_' ∨ c = '-' ∨ c = '.')

/-- main.py lines 124-126, validate_latex_filename. -/
def validate_latex_filename (name : String) : Bool :=
  strEndsWith name ".tex" && decide (5 ≤ name.toList.length) &&
    name.toList.all isLatexFilenameChar

/-- main.py lines 461-572, convert_to_pdf, up to the moment the HTTP
response is returned.  BackgroundTasks runs the compile task only after
the response is sent, so the store component is the Job Store content
at that moment; the Bool records whether a compile task was scheduled.
The two validation rejections (non-zip name, bad main-file name) raise
HTTPException 400 before any row is created.  A single clock reading
stands in for the times of the consecutive writes within the request
(they only set created_at and updated_at, whose exact values no claim
below depends on). -/
def convert_to_pdf (maxUpload : ℕ) (now : ℤ) (jobId workDir apiKey : String)
    (zipFilename : String) (opts : ConversionOptions) (contentSize : ℕ)
    (entries : List ZipEntry) :
    Except ℕ SubmitResponse × List (String × JobRecord) × Bool :=
  if strEndsWith zipFilename ".zip" = false then
    (Except.error 400, [], false)
  else if validate_latex_filename opts.main_file = false then
    (Except.error 400, [], false)
  else
    let row0 : JobRecord :=
      { status := "uploading", created_at := now, work_dir := "", api_key := apiKey,
        options := opts, error := "", progress := "", updated_at := now }
    let row1 := update_job now { status := some "extracting", work_dir := some workDir } row0
    if maxUpload < contentSize then
      let row2 := update_job now
        { status := some "failed", error := some "File too large." } row1
      (Except.ok { job_id := jobId, status := "failed", message := "File too large" },
       [(jobId, row2)], false)
    else
      match (sanitize_zip_archive maxUpload entries).1 with
      | Except.error msg =>
        let row2 := update_job now
          { status := some "failed", error := some ("Zip extraction failed: " ++ msg) } row1
        (Except.ok { job_id := jobId, status := "failed", message := msg },
         [(jobId, row2)], false)
      | Except.ok () =>
        let row2 := update_job now { status := some "queued" } row1
        (Except.ok { job_id := jobId, status := "processing",
                     message := "Conversion job started" },
         [(jobId, row2)], true)

/-! ## Theorems: C10 -/

/-- C10: for a submission that passes both validations, fits the size
bound and extracts successfully, the submit response says status
processing while the row stored at that moment says queued (the compile
task is only scheduled, to run after the response is sent), so an
immediate status poll reports queued, not the status in the submit
response. -/
theorem c10_submit_processing_store_queued (maxUpload : ℕ) (now : ℤ)
    (jobId workDir apiKey zipFilename : String) (opts : ConversionOptions)
    (contentSize : ℕ) (entries : List ZipEntry)
    (hzip : strEndsWith zipFilename ".zip" = true)
    (hmain : validate_latex_filename opts.main_file = true)
    (hsize : contentSize ≤ maxUpload)
    (hsan : (sanitize_zip_archive maxUpload entries).1 = Except.ok ()) :
    (convert_to_pdf maxUpload now jobId workDir apiKey zipFilename opts contentSize
        entries).1 =
      Except.ok { job_id := jobId, status := "processing",
                  message := "Conversion job started" } ∧
    ((convert_to_pdf maxUpload now jobId workDir apiKey zipFilename opts contentSize
        entries).2.1).lookup jobId =
      some { status := "queued", created_at := now, work_dir := workDir,
             api_key := apiKey, options := opts, error := "", progress := "",
             updated_at := now } ∧
    (check_job_status
        (convert_to_pdf maxUpload now jobId workDir apiKey zipFilename opts contentSize
          entries).2.1 jobId).1 =
      Except.ok { job_id := jobId, status := "queued", created_at := now,
                  error := none, progress := none } ∧
    (convert_to_pdf maxUpload now jobId workDir apiKey zipFilename opts contentSize
        entries).2.2 = true := by
  have hnl : ¬ (maxUpload < contentSize) := not_lt.mpr hsize
  have hconv :
      convert_to_pdf maxUpload now jobId workDir apiKey zipFilename opts contentSize
          entries =
        (Except.ok { job_id := jobId, status := "processing",
                     message := "Conversion job started" },
         [(jobId, { status := "queued", created_at := now, work_dir := workDir,
                    api_key := apiKey, options := opts, error := "", progress := "",
                    updated_at := now })], true) := by
    unfold convert_to_pdf
    rw [hzip, hmain, hsan]
    simp [hnl, update_job]
  rw [hconv]
  refine ⟨rfl, by simp [List.lookup], ?_, rfl⟩
  simp [check_job_status, List.lookup]

/-- Witness for c10_submit_processing_store_queued: a valid one-file
archive submission answers processing while storing queued, and the
poll on that store answers queued. -/
theorem c10_submit_processing_store_queued_witness :
    (convert_to_pdf 1000 50 "job-1" "/tmp/w" "k" "paper.zip"
        { main_file := "main.tex", num_runs := 2, use_bibtex := false } 10
        [⟨"main.tex", 5⟩]).1 =
      Except.ok { job_id := "job-1", status := "processing",
                  message := "Conversion job started" } ∧
    (check_job_status
        (convert_to_pdf 1000 50 "job-1" "/tmp/w" "k" "paper.zip"
          { main_file := "main.tex", num_runs := 2, use_bibtex := false } 10
          [⟨"main.tex", 5⟩]).2.1 "job-1").1 =
      Except.ok { job_id := "job-1", status := "queued", created_at := 50,
                  error := none, progress := none } :=
  ⟨(c10_submit_processing_store_queued 1000 50 "job-1" "/tmp/w" "k" "paper.zip"
      { main_file := "main.tex", num_runs := 2, use_bibtex := false } 10
      [⟨"main.tex", 5⟩] (by decide) (by decide) (by decide) (by rfl)).1,
   (c10_submit_processing_store_queued 1000 50 "job-1" "/tmp/w" "k" "paper.zip"
      { main_file := "main.tex", num_runs := 2, use_bibtex := false } 10
      [⟨"main.tex", 5⟩] (by decide) (by decide) (by decide) (by rfl)).2.2.1⟩

end Tex2Pdf
